import Mathlib

/-!
Verification development for the ssm-config library (src/index.js and
src/lib/logger.js): a layered configuration loader that resolves typed
configuration values from process environment variables, a remote SSM
parameter store, and static defaults.

The embedding is shallow: JavaScript runtime values are modelled by the
inductive type JSVal, JavaScript objects used as string maps by
association lists (Smap), the process environment by a function
String -> Option String, and the remote store plus the Lambda extension
endpoint by oracle functions supplied as parameters.  Thrown errors are
modelled with Except over the ConfigError taxonomy.  Mutation of the
module-level state (ssmCache, configInitialized, initializationPromise,
process.env) is modelled by explicit state passing.
-/

namespace SSMConfig

/-- JavaScript runtime values that flow through the library: strings,
numbers (modelled as rationals; the NaN sentinel is a separate
constructor), and booleans. -/
inductive JSVal where
  | vStr (s : String)
  | vNum (q : Rat)
  | vBool (b : Bool)
  | vNaN
deriving DecidableEq, Repr

/-- Error taxonomy of the library.  Each constructor corresponds to one
thrown Error in src/index.js: invalidType and invalidBoolean are thrown
by convertValue, missingConfigValue by loadConfig and getConfig,
configMapNotSet by initializeConfig, notInitialized by getConfig, and
jsTypeError models the TypeError raised when getConfig destructures a
key that is not in the schema. -/
inductive ConfigError where
  | invalidType (t : String)
  | invalidBoolean (raw : JSVal)
  | missingConfigValue (key : String)
  | configMapNotSet
  | notInitialized
  | jsTypeError
deriving DecidableEq, Repr

/-- Truthiness of a possibly-absent JavaScript string: undefined and the
empty string are falsy, every other string is truthy. -/
def truthyOpt : Option String → Bool
  | none => false
  | some s => s ≠ ""

/-- Value of a run of decimal digit characters. -/
def digitsToNat (cs : List Char) : Nat :=
  cs.foldl (fun a c => a * 10 + (c.toNat - ('0').toNat)) 0

/-- Whitespace skipped by the JavaScript numeric parsers. -/
def isJsSpace (c : Char) : Bool :=
  c = ' ' ∨ c = '\t' ∨ c = '\n' ∨ c = '\r'

/-- JavaScript parseInt(s, 10): skip leading whitespace, read an optional
sign and then a maximal run of decimal digits; none models NaN (no
digits found). -/
def parseIntJS (s : String) : Option Int :=
  let cs := s.toList.dropWhile isJsSpace
  let signAndRest : Int × List Char :=
    match cs with
    | '-' :: rest => (-1, rest)
    | '+' :: rest => (1, rest)
    | _ => (1, cs)
  let ds := signAndRest.2.takeWhile Char.isDigit
  if ds.isEmpty then none
  else some (signAndRest.1 * (digitsToNat ds : Int))

/-- JavaScript parseFloat(s): skip leading whitespace, read an optional
sign, a decimal mantissa (digits, optionally a point and more digits)
and an optional exponent part; the longest valid prefix is used and
none models NaN.  Non-finite spellings such as Infinity are outside the
model (the library never produces them). -/
def parseFloatJS (s : String) : Option Rat :=
  let cs := s.toList.dropWhile isJsSpace
  let signAndRest : Rat × List Char :=
    match cs with
    | '-' :: rest => (-1, rest)
    | '+' :: rest => (1, rest)
    | _ => (1, cs)
  let ip := signAndRest.2.takeWhile Char.isDigit
  let cs2 := signAndRest.2.dropWhile Char.isDigit
  let fracAndRest : List Char × List Char :=
    match cs2 with
    | '.' :: rest => (rest.takeWhile Char.isDigit, rest.dropWhile Char.isDigit)
    | _ => ([], cs2)
  let fp := fracAndRest.1
  if ip.isEmpty ∧ fp.isEmpty then none
  else
    let mantissa : Rat :=
      (digitsToNat ip : Rat) + (digitsToNat fp : Rat) / ((10 : Rat) ^ fp.length)
    let expVal : Int :=
      match fracAndRest.2 with
      | c :: rest =>
        if c = 'e' ∨ c = 'E' then
          let esAndRest : Int × List Char :=
            match rest with
            | '-' :: r => (-1, r)
            | '+' :: r => (1, r)
            | _ => (1, rest)
          let eds := esAndRest.2.takeWhile Char.isDigit
          if eds.isEmpty then 0 else esAndRest.1 * (digitsToNat eds : Int)
        else 0
      | [] => 0
    some (signAndRest.1 * mantissa * (10 : Rat) ^ expVal)

/-- Decimal rendering of a rational whose reduced denominator divides a
power of ten, which is the only kind of number the library constructs
(parseIntJS and parseFloatJS results).  Used to model the JavaScript
String() conversion on numbers. -/
def ratToString (q : Rat) : String :=
  if q.den = 1 then toString q.num
  else
    match (List.range 41).find? (fun k => (q * (10 : Rat) ^ k).den = 1) with
    | some k =>
      let n := (q * (10 : Rat) ^ k).num
      let sign := if n < 0 then "-" else ""
      let raw := toString n.natAbs
      let digits :=
        if raw.length ≤ k then String.mk (List.replicate (k + 1 - raw.length) '0') ++ raw
        else raw
      sign ++ digits.take (digits.length - k) ++ "." ++ digits.drop (digits.length - k)
    | none => toString q.num ++ "/" ++ toString q.den

/-- JavaScript String() conversion on the values the library handles. -/
def jsToString : JSVal → String
  | .vStr s => s
  | .vNum q => ratToString q
  | .vBool b => if b then "true" else "false"
  | .vNaN => "NaN"

instance exceptDecEq {ε α : Type} [DecidableEq ε] [DecidableEq α] :
    DecidableEq (Except ε α) := fun x y =>
  match x, y with
  | .ok a, .ok b =>
    if h : a = b then .isTrue (by simp [h]) else .isFalse (by simp [h])
  | .ok _, .error _ => .isFalse (by simp)
  | .error _, .ok _ => .isFalse (by simp)
  | .error e, .error f =>
    if h : e = f then .isTrue (by simp [h]) else .isFalse (by simp [h])

/-- The supported declared value types of convertValue. -/
def validTypes : List String := ["string", "int", "float", "bool"]

/-- Embedding of convertValue (src/index.js lines 128-154): validates the
declared type, parses int and float values with the JavaScript numeric
parsers, accepts exactly the boolean tokens true/1/numeric 1 and
false/0/numeric 0, and leaves strings unchanged. -/
def convertValue (value : JSVal) (type : String) : Except ConfigError JSVal :=
  if ¬ validTypes.contains type then
    .error (.invalidType type)
  else if type = "int" then
    .ok (match parseIntJS (jsToString value) with
      | some n => .vNum (n : Rat)
      | none => .vNaN)
  else if type = "float" then
    .ok (match parseFloatJS (jsToString value) with
      | some q => .vNum q
      | none => .vNaN)
  else if type = "bool" then
    if value = .vStr "true" ∨ value = .vStr "1" ∨ value = .vNum 1 then
      .ok (.vBool true)
    else if value = .vStr "false" ∨ value = .vStr "0" ∨ value = .vNum 0 then
      .ok (.vBool false)
    else
      .error (.invalidBoolean value)
  else
    .ok value

/-- JavaScript objects used as maps from parameter names to fetched
string values (ssmValues, ssmCache) are modelled as association lists
with at most one entry per key. -/
abbrev Smap := List (String × String)

/-- Reading a property of a JavaScript object map: the stored value, or
none for undefined. -/
def Smap.get (m : Smap) (k : String) : Option String :=
  (m.find? (fun p => p.1 = k)).map (fun p => p.2)

/-- Property assignment on a JavaScript object map: overwrite the value
of an existing key in place, or append a new entry at the end,
mirroring JavaScript object key ordering. -/
def Smap.set : Smap → String → String → Smap
  | [], k, v => [(k, v)]
  | (a, b) :: t, k, v =>
    if a = k then (k, v) :: t else (a, b) :: Smap.set t k v

/-- One entry of the user-supplied configMap: the mapping key, the
environment variable to check first, an optional SSM parameter path
fallback, an optional static fallback value, and the declared type.
A JavaScript fallbackStatic that is explicitly null is observationally
identical to an absent one in loadConfig (both throw MissingConfigValue
and no caller observes the source tag first), so none models both
undefined and null. -/
structure ConfigItem where
  key : String
  envVar : String
  fallbackSSM : Option String := none
  fallbackStatic : Option JSVal := none
  type : String
deriving DecidableEq, Repr

/-- The process environment: a partial map from variable names to string
values. -/
abbrev Env := String → Option String

/-- Assignment process.env[name] = value. -/
def setEnv (env : Env) (name value : String) : Env :=
  fun n => if n = name then some value else env n

/-- Source tag recorded for each resolved item. -/
inductive Source where
  | env
  | ssm
  | default
deriving DecidableEq, Repr

/-- Fallback part of the per-item resolution in loadConfig (src/index.js
lines 203-219), reached when the environment variable is unset or empty:
a truthy fallbackSSM is looked up in the fetched values, with a falsy
fetched value collapsed to null by the expression
ssmValues[fallbackSSM] || null; a null or undefined result falls back to
fallbackStatic, and MissingConfigValue is thrown when that is absent
too. -/
def resolveFallback (ssmValues : Smap) (it : ConfigItem) :
    Except ConfigError (JSVal × Source) :=
  let remote : Option String :=
    match it.fallbackSSM with
    | some ref =>
      if ref ≠ "" then
        match Smap.get ssmValues ref with
        | some v => if v = "" then none else some v
        | none => none
      else none
    | none => none
  match remote with
  | some v => .ok (.vStr v, .ssm)
  | none =>
    match it.fallbackStatic with
    | some d => .ok (d, .default)
    | none => .error (.missingConfigValue it.key)

/-- Per-item raw value resolution in loadConfig (src/index.js lines
197-219): the environment variable wins when its current value is
truthy (set and non-empty), otherwise the fallback chain of
resolveFallback applies. -/
def resolveRaw (env : Env) (ssmValues : Smap) (it : ConfigItem) :
    Except ConfigError (JSVal × Source) :=
  match env it.envVar with
  | some s => if s ≠ "" then .ok (.vStr s, .env) else resolveFallback ssmValues it
  | none => resolveFallback ssmValues it

/-- The per-item loop of loadConfig (src/index.js lines 197-225): resolve
each item raw value, coerce it with convertValue, and write the coerced
value back into the environment variable; the first thrown error aborts
the loop, and environment writes already performed persist. -/
def processItems (items : List ConfigItem) (ssmValues : Smap) (env : Env) :
    Except ConfigError Unit × Env :=
  match items with
  | [] => (.ok (), env)
  | it :: rest =>
    match resolveRaw env ssmValues it with
    | .error e => (.error e, env)
    | .ok (v, _src) =>
      match convertValue v it.type with
      | .error e => (.error e, env)
      | .ok cv => processItems rest ssmValues (setEnv env it.envVar (jsToString cv))

/-- The Lambda-extension loop of loadConfig (src/index.js lines 169-184):
fetch each required parameter from the local agent one at a time,
accumulating successes, and stop at the first null result.  Returns the
accumulated values, whether a failure occurred, and the list of
parameters actually attempted. -/
def lambdaPhase (lambdaFetch : String → Option String) :
    List String → Smap → Smap × Bool × List String
  | [], acc => (acc, false, [])
  | p :: rest, acc =>
    match lambdaFetch p with
    | none => (acc, true, [p])
    | some v =>
      let r := lambdaPhase lambdaFetch rest (acc.set p v)
      (r.1, r.2.1, p :: r.2.2)

/-- Record of which remote transports a fetch pass used. -/
structure FetchTrace where
  lambdaCalls : List String
  batchCalled : Bool
deriving DecidableEq, Repr

/-- The remote-fetch orchestration of loadConfig (src/index.js lines
168-189), for a non-empty parameter list: in a Lambda environment try
the extension for each parameter, discard all partial results on the
first null; whenever the accumulated value object is empty (extension
failed, extension skipped, or not in Lambda) fetch the full set through
getBatchFromSSM, abstracted here as the batchFetch oracle taking the
parameter names and the kmsKeyId. -/
def fetchOrchestration (isLambda : Bool) (lambdaFetch : String → Option String)
    (batchFetch : List String → Option String → Smap) (kmsKeyId : Option String)
    (ssmParameters : List String) : Smap × FetchTrace :=
  let lam : Smap × List String :=
    if isLambda then
      let r := lambdaPhase lambdaFetch ssmParameters []
      (if r.2.1 then [] else r.1, r.2.2)
    else ([], [])
  if lam.1.isEmpty then
    (batchFetch ssmParameters kmsKeyId, { lambdaCalls := lam.2, batchCalled := true })
  else
    (lam.1, { lambdaCalls := lam.2, batchCalled := false })

/-- Record of which SSM API calls getBatchFromSSM issued. -/
structure BatchTrace where
  bulkCalled : Bool
  singleCalls : List (String × Option String)
deriving DecidableEq, Repr

/-- The individual-fetch loop of getBatchFromSSM (src/index.js lines
82-97): call getParameterFromSSM for each name in order, passing the
KMS key, keeping the values that were found and tolerating not-found
results.  Returns the value map and the (name, key) calls issued. -/
def fetchIndividually (single : String → Option String → Option String)
    (kmsKeyId : Option String) :
    List String → Smap → Smap × List (String × Option String)
  | [], acc => (acc, [])
  | p :: rest, acc =>
    let acc' := match single p kmsKeyId with
      | some value => acc.set p value
      | none => acc
    let r := fetchIndividually single kmsKeyId rest acc'
    (r.1, (p, kmsKeyId) :: r.2)

/-- Embedding of getBatchFromSSM (src/index.js lines 80-125): with a
truthy custom KMS key the parameters are fetched individually through
getParameterFromSSM (modelled by the single oracle, none for not-found
or transport errors); otherwise one bulk GetParameters call is issued
(modelled by the bulk oracle returning the found map; transport errors
appear as an empty map, matching the catch branch). -/
def getBatchFromSSM (single : String → Option String → Option String)
    (bulk : List String → Smap) (parameterNames : List String)
    (kmsKeyId : Option String) : Smap × BatchTrace :=
  if truthyOpt kmsKeyId then
    let r := fetchIndividually single kmsKeyId parameterNames []
    (r.1, { bulkCalled := false, singleCalls := r.2 })
  else
    (bulk parameterNames, { bulkCalled := true, singleCalls := [] })

/-- The module-level mutable state touched by loadConfig and getConfig:
the process environment, the ssmCache object, and the configInitialized
flag. -/
structure Sys where
  env : Env
  ssmCache : Smap
  configInitialized : Bool

/-- Fetch phase of loadConfig (src/index.js lines 162-193): collect the
truthy fallbackSSM paths of all items and, when there is at least one,
fetch them through fetchOrchestration and store the result in the
ssmCache field of the state. -/
def loadConfigFetch (isLambda : Bool) (lambdaFetch : String → Option String)
    (batchFetch : List String → Option String → Smap) (kmsKeyId : Option String)
    (configMap : List ConfigItem) (st : Sys) : Smap × Sys × FetchTrace :=
  let ssmParameters := configMap.filterMap
    (fun it => if truthyOpt it.fallbackSSM then it.fallbackSSM else none)
  if ssmParameters.length > 0 then
    let r := fetchOrchestration isLambda lambdaFetch batchFetch kmsKeyId ssmParameters
    (r.1, { st with ssmCache := r.1 }, r.2)
  else ([], st, ⟨[], false⟩)

/-- Item-resolution phase of loadConfig: run the per-item loop on the
fetched values and either report the thrown error (keeping the state
mutations already performed) or mark the configuration initialized. -/
def loadConfigRun (configMap : List ConfigItem) (f : Smap × Sys × FetchTrace) :
    Except ConfigError Unit × Sys × FetchTrace :=
  match processItems configMap f.1 f.2.1.env with
  | (.error e, env') => (.error e, { f.2.1 with env := env' }, f.2.2)
  | (.ok _, env') =>
    (.ok (), { f.2.1 with env := env', configInitialized := true }, f.2.2)

/-- Embedding of loadConfig (src/index.js lines 157-264): no-op when
already initialized; otherwise run the fetch phase and then the
per-item resolution phase.  The logging summary is emitted to an
external sink and is not modelled.  Errors thrown from the loop
propagate while the state mutations already performed (ssmCache
assignment, environment write-backs) persist. -/
def loadConfig (isLambda : Bool) (lambdaFetch : String → Option String)
    (batchFetch : List String → Option String → Smap) (kmsKeyId : Option String)
    (configMap : List ConfigItem) (st : Sys) :
    Except ConfigError Unit × Sys × FetchTrace :=
  if st.configInitialized then (.ok (), st, ⟨[], false⟩)
  else loadConfigRun configMap
    (loadConfigFetch isLambda lambdaFetch batchFetch kmsKeyId configMap st)

/-- Embedding of getConfig (src/index.js lines 297-324): destructuring a
key that is not in the configMap throws a TypeError; before
initialization the static fallback is returned coerced when present and
NotInitialized is thrown otherwise; after initialization the live
environment variable is used whenever it is defined (any value,
including the empty string), then a cached SSM value for a truthy
fallbackSSM, then the static fallback, and MissingConfigValue is thrown
when none applies. -/
def getConfig (configMap : List ConfigItem) (st : Sys) (key : String) :
    Except ConfigError JSVal :=
  match configMap.find? (fun it => it.key = key) with
  | none => .error .jsTypeError
  | some it =>
    if ¬ st.configInitialized then
      match it.fallbackStatic with
      | some d => convertValue d it.type
      | none => .error .notInitialized
    else
      match st.env it.envVar with
      | some s => convertValue (.vStr s) it.type
      | none =>
        let cached : Option String :=
          match it.fallbackSSM with
          | some ref => if ref ≠ "" then Smap.get st.ssmCache ref else none
          | none => none
        match cached with
        | some v => convertValue (.vStr v) it.type
        | none =>
          match it.fallbackStatic with
          | some d => convertValue d it.type
          | none => .error (.missingConfigValue key)

/-- Outcome of one synchronous call to initializeConfig: the thrown
configuration-map error, an immediately resolved call (already
initialized), a call that joined the stored in-flight promise, or a
call that created and stored a new promise and started loadConfig.
Promises are identified by numeric identifiers. -/
inductive InitOutcome where
  | configMapNotSetErr
  | alreadyInitialized
  | joined (p : Nat)
  | started (p : Nat)
deriving DecidableEq, Repr

/-- The module-level state read and written by the synchronous prefix of
initializeConfig: whether configMap has been assigned, the
configInitialized flag, the stored initializationPromise, the quiet
flag, and a counter supplying fresh promise identifiers. -/
structure InitState where
  configMapSet : Bool
  configInitialized : Bool
  initializationPromise : Option Nat
  isQuietMode : Bool
  nextPromiseId : Nat
deriving DecidableEq, Repr

/-- Embedding of the synchronous prefix of initializeConfig
(src/index.js lines 267-294), which runs to completion before any
suspension point: throw when configMap is unset, resolve immediately
when already initialized, return the stored promise when one is in
flight, and otherwise record the quiet option, create a fresh promise,
store it, and start the resolution pass. -/
def initializeConfig (s : InitState) (quietOpt : Option Bool) :
    InitOutcome × InitState :=
  if ¬ s.configMapSet then (.configMapNotSetErr, s)
  else if s.configInitialized then (.alreadyInitialized, s)
  else
    match s.initializationPromise with
    | some p => (.joined p, s)
    | none =>
      let s1 := match quietOpt with
        | some q => { s with isQuietMode := q }
        | none => s
      (.started s1.nextPromiseId,
        { s1 with
          initializationPromise := some s1.nextPromiseId,
          nextPromiseId := s1.nextPromiseId + 1 })

/-- A sequence of initializeConfig calls whose synchronous prefixes run
one after another (the cooperative-concurrency model: each prefix is
atomic because it contains no suspension point). -/
def runInitCalls (s : InitState) :
    List (Option Bool) → List InitOutcome × InitState
  | [] => ([], s)
  | o :: rest =>
    let r := initializeConfig s o
    let rs := runInitCalls r.2 rest
    (r.1 :: rs.1, rs.2)

/-- Settlement of the in-flight initialization pass, combining the tail
of loadConfig with the catch handler installed by initializeConfig
(src/index.js lines 263 and 288-291): on success the configInitialized
flag is set and the stored promise resolves; on failure the stored
promise is cleared and the error is rethrown, so the first component is
the settled outcome observed by every caller holding the shared
promise. -/
def settleInitialization (s : InitState) (r : Except ConfigError Unit) :
    Except ConfigError Unit × InitState :=
  match r with
  | .ok _ => (.ok (), { s with configInitialized := true })
  | .error e => (.error e, { s with initializationPromise := none })

/-- The environment variable of an item does not count as present during
a resolution pass: it is unset or set to the empty string. -/
def envMiss (env : Env) (it : ConfigItem) : Prop :=
  env it.envVar = none ∨ env it.envVar = some ""

/-- No usable fetched remote value exists for an item: a truthy
fallbackSSM reference either is absent from the fetched map or came
back as the empty string. -/
def remoteMiss (m : Smap) (it : ConfigItem) : Prop :=
  ∀ ref, it.fallbackSSM = some ref → ref ≠ "" →
    Smap.get m ref = none ∨ Smap.get m ref = some ""

/-- No cached remote value is available to getConfig for an item: a
truthy fallbackSSM reference is absent from the ssmCache.  Unlike the
resolution pass, getConfig uses a defined-ness test on the cache, so an
empty cached string would count as present. -/
def cacheMiss (m : Smap) (it : ConfigItem) : Prop :=
  ∀ ref, it.fallbackSSM = some ref → ref ≠ "" → Smap.get m ref = none

/-- C7: the value coercer with type bool returns true exactly for the
inputs "true", "1" and numeric 1, returns false exactly for "false",
"0" and numeric 0, and fails with InvalidBooleanValue for every other
input. -/
theorem c7_convertValue_bool (v : JSVal) :
    (convertValue v "bool" = .ok (.vBool true) ↔
      v = .vStr "true" ∨ v = .vStr "1" ∨ v = .vNum 1) ∧
    (convertValue v "bool" = .ok (.vBool false) ↔
      v = .vStr "false" ∨ v = .vStr "0" ∨ v = .vNum 0) ∧
    (¬(v = .vStr "true" ∨ v = .vStr "1" ∨ v = .vNum 1) →
      ¬(v = .vStr "false" ∨ v = .vStr "0" ∨ v = .vNum 0) →
      convertValue v "bool" = .error (.invalidBoolean v)) := by
  by_cases h1 : v = .vStr "true" ∨ v = .vStr "1" ∨ v = .vNum 1
  · have hcv : convertValue v "bool" = .ok (.vBool true) := by
      simp [convertValue, validTypes, h1]
    refine ⟨by simp [hcv, h1], ?_, fun hn _ => absurd h1 hn⟩
    rw [hcv]
    constructor
    · intro h
      exact absurd (Except.ok.inj h) (by decide)
    · intro h2
      rcases h1 with h | h | h <;> rcases h2 with h' | h' | h' <;>
        (subst h; exact absurd h' (by decide))
  · by_cases h2 : v = .vStr "false" ∨ v = .vStr "0" ∨ v = .vNum 0
    · have hcv : convertValue v "bool" = .ok (.vBool false) := by
        simp [convertValue, validTypes, h1, h2]
      refine ⟨?_, by simp [hcv, h2], fun _ hn => absurd h2 hn⟩
      rw [hcv]
      constructor
      · intro h
        exact absurd (Except.ok.inj h) (by decide)
      · intro h1'
        exact absurd h1' h1
    · have hcv : convertValue v "bool" = .error (.invalidBoolean v) := by
        simp [convertValue, validTypes, h1, h2]
      exact ⟨iff_of_false (by rw [hcv]; simp) h1,
        iff_of_false (by rw [hcv]; simp) h2, fun _ _ => hcv⟩

/-- Witness for C7 at the concrete input "yes", which is neither a true
token nor a false token and is rejected with InvalidBooleanValue. -/
theorem c7_convertValue_bool_witness :
    (¬((JSVal.vStr "yes") = .vStr "true" ∨ (JSVal.vStr "yes") = .vStr "1" ∨
        (JSVal.vStr "yes") = .vNum 1)) ∧
    (¬((JSVal.vStr "yes") = .vStr "false" ∨ (JSVal.vStr "yes") = .vStr "0" ∨
        (JSVal.vStr "yes") = .vNum 0)) ∧
    convertValue (.vStr "yes") "bool" = .error (.invalidBoolean (.vStr "yes")) :=
  ⟨by decide, by decide,
    (c7_convertValue_bool (.vStr "yes")).2.2 (by decide) (by decide)⟩

lemma resolveRaw_env_hit (env : Env) (m : Smap) (it : ConfigItem) (s : String)
    (h : env it.envVar = some s) (hs : s ≠ "") :
    resolveRaw env m it = .ok (.vStr s, .env) := by
  simp [resolveRaw, h, hs]

lemma resolveRaw_envMiss (env : Env) (m : Smap) (it : ConfigItem)
    (h : envMiss env it) : resolveRaw env m it = resolveFallback m it := by
  rcases h with h | h <;> simp [resolveRaw, h]

lemma resolveFallback_remote_hit (m : Smap) (it : ConfigItem) (ref v : String)
    (href : it.fallbackSSM = some ref) (hne : ref ≠ "")
    (hget : Smap.get m ref = some v) (hv : v ≠ "") :
    resolveFallback m it = .ok (.vStr v, .ssm) := by
  simp [resolveFallback, href, hne, hget, hv]

lemma resolveFallback_remoteMiss (m : Smap) (it : ConfigItem)
    (h : remoteMiss m it) :
    resolveFallback m it =
      match it.fallbackStatic with
      | some d => .ok (d, .default)
      | none => .error (.missingConfigValue it.key) := by
  unfold resolveFallback
  rcases href : it.fallbackSSM with _ | ref
  · rfl
  · by_cases hne : ref = ""
    · simp [hne]
    · rcases h ref href hne with hg | hg <;> simp [hg, hne]

/-- C1: for every schema item in a resolution pass, the resolved raw
value is determined by strict precedence: the environment variable when
set to a non-empty value; otherwise the fetched remote value for the
item fallbackSSM reference (usable fetched values are non-empty: both
fetchers report empty values as not found); otherwise fallbackStatic;
and when none of the three applies the item resolves to
MissingConfigValue naming the key, which aborts the per-item loop at
that item, so the entire pass fails with that error (the final conjunct
shows an item that resolves and coerces passes control to the rest of
the loop unchanged, so a later offending item fails the whole pass). -/
theorem c1_precedence (env : Env) (ssmValues : Smap) (it : ConfigItem) :
    (∀ s, env it.envVar = some s → s ≠ "" →
      resolveRaw env ssmValues it = .ok (.vStr s, .env)) ∧
    (envMiss env it → ∀ ref v, it.fallbackSSM = some ref → ref ≠ "" →
      Smap.get ssmValues ref = some v → v ≠ "" →
      resolveRaw env ssmValues it = .ok (.vStr v, .ssm)) ∧
    (envMiss env it → remoteMiss ssmValues it →
      ∀ d, it.fallbackStatic = some d →
      resolveRaw env ssmValues it = .ok (d, .default)) ∧
    (envMiss env it → remoteMiss ssmValues it → it.fallbackStatic = none →
      resolveRaw env ssmValues it = .error (.missingConfigValue it.key)) ∧
    (∀ items env0, envMiss env0 it → remoteMiss ssmValues it →
      it.fallbackStatic = none →
      processItems (it :: items) ssmValues env0 =
        (.error (.missingConfigValue it.key), env0)) ∧
    (∀ items env0 v src cv, resolveRaw env0 ssmValues it = .ok (v, src) →
      convertValue v it.type = .ok cv →
      processItems (it :: items) ssmValues env0 =
        processItems items ssmValues (setEnv env0 it.envVar (jsToString cv))) := by
  refine ⟨fun s h hs => resolveRaw_env_hit env ssmValues it s h hs,
    fun hm ref v href hne hget hv => ?_, fun hm hr d hd => ?_, fun hm hr hd => ?_,
    fun items env0 hm hr hd => ?_, fun items env0 v src cv h1 h2 => ?_⟩
  · rw [resolveRaw_envMiss env ssmValues it hm]
    exact resolveFallback_remote_hit ssmValues it ref v href hne hget hv
  · rw [resolveRaw_envMiss env ssmValues it hm,
      resolveFallback_remoteMiss ssmValues it hr, hd]
  · rw [resolveRaw_envMiss env ssmValues it hm,
      resolveFallback_remoteMiss ssmValues it hr, hd]
  · have hraw : resolveRaw env0 ssmValues it = .error (.missingConfigValue it.key) := by
      rw [resolveRaw_envMiss env0 ssmValues it hm,
        resolveFallback_remoteMiss ssmValues it hr, hd]
    simp [processItems, hraw]
  · simp [processItems, h1, h2]

/-- Witness for C1 at concrete inputs: an item whose environment
variable is set to the empty string and whose reference was fetched as
a non-empty value resolves to the fetched remote value. -/
theorem c1_precedence_witness :
    (fun n => if n = "E" then some "" else none : Env) "E" = some "" ∧
    resolveRaw (fun n => if n = "E" then some "" else none) [("r", "v")]
      { key := "K", envVar := "E", fallbackSSM := some "r", type := "string" } =
      .ok (.vStr "v", .ssm) :=
  ⟨by decide,
    (c1_precedence (fun n => if n = "E" then some "" else none) [("r", "v")]
      { key := "K", envVar := "E", fallbackSSM := some "r", type := "string" }).2.1
      (Or.inr (by decide)) "r" "v" rfl (by decide) (by decide) (by decide)⟩

/-- C10: during a resolution pass, a remote value fetched as the empty
string is treated as not found: with the environment variable missing
and the fetched value for the items reference equal to the empty
string, resolution falls through to fallbackStatic when present, and
fails with MissingConfigValue naming the key when no fallbackStatic
exists. -/
theorem c10_empty_remote_treated_not_found (env : Env) (ssmValues : Smap)
    (it : ConfigItem) (ref : String) (hm : envMiss env it)
    (href : it.fallbackSSM = some ref)
    (hget : Smap.get ssmValues ref = some "") :
    (∀ d, it.fallbackStatic = some d →
      resolveRaw env ssmValues it = .ok (d, .default)) ∧
    (it.fallbackStatic = none →
      resolveRaw env ssmValues it = .error (.missingConfigValue it.key)) := by
  have hr : remoteMiss ssmValues it := by
    intro ref' href' _
    rw [href] at href'
    rw [← Option.some.inj href']
    exact Or.inr hget
  constructor
  · intro d hd
    rw [resolveRaw_envMiss env ssmValues it hm,
      resolveFallback_remoteMiss ssmValues it hr, hd]
  · intro hd
    rw [resolveRaw_envMiss env ssmValues it hm,
      resolveFallback_remoteMiss ssmValues it hr, hd]

/-- Witness for C10 at concrete inputs: the reference of the item was
fetched as the empty string and no static fallback exists, so the item
fails the pass with MissingConfigValue naming its key. -/
theorem c10_empty_remote_treated_not_found_witness :
    envMiss (fun _ => none)
      { key := "K", envVar := "E", fallbackSSM := some "r", type := "string" } ∧
    Smap.get [("r", "")] "r" = some "" ∧
    resolveRaw (fun _ => none) [("r", "")]
      { key := "K", envVar := "E", fallbackSSM := some "r", type := "string" } =
      .error (.missingConfigValue "K") :=
  ⟨Or.inl rfl, rfl,
    (c10_empty_remote_treated_not_found (fun _ => none) [("r", "")]
      { key := "K", envVar := "E", fallbackSSM := some "r", type := "string" }
      "r" (Or.inl rfl) rfl rfl).2 rfl⟩

/-- C5: once initialization has settled, getConfig for a key in the
schema re-checks the live environment variable first (any defined
value), then the ssmCache entry for the item fallbackSSM reference,
then fallbackStatic, returning the first that applies coerced to the
declared type, and fails with MissingConfigValue naming the key when
none resolves. -/
theorem c5_getConfig_settled (configMap : List ConfigItem) (st : Sys)
    (key : String) (it : ConfigItem)
    (hfind : configMap.find? (fun i => i.key = key) = some it)
    (hinit : st.configInitialized = true) :
    (∀ s, st.env it.envVar = some s →
      getConfig configMap st key = convertValue (.vStr s) it.type) ∧
    (st.env it.envVar = none →
      ∀ ref v, it.fallbackSSM = some ref → ref ≠ "" →
      Smap.get st.ssmCache ref = some v →
      getConfig configMap st key = convertValue (.vStr v) it.type) ∧
    (st.env it.envVar = none → cacheMiss st.ssmCache it →
      ∀ d, it.fallbackStatic = some d →
      getConfig configMap st key = convertValue d it.type) ∧
    (st.env it.envVar = none → cacheMiss st.ssmCache it →
      it.fallbackStatic = none →
      getConfig configMap st key = .error (.missingConfigValue key)) := by
  refine ⟨fun s hs => ?_, fun hm ref v href hne hget => ?_,
    fun hm hc d hd => ?_, fun hm hc hd => ?_⟩
  · simp [getConfig, hfind, hinit, hs]
  · simp [getConfig, hfind, hinit, hm, href, hne, hget]
  · rcases href : it.fallbackSSM with _ | ref
    · simp [getConfig, hfind, hinit, hm, hd, href]
    · by_cases hne : ref = ""
      · simp [getConfig, hfind, hinit, hm, hd, href, hne]
      · simp [getConfig, hfind, hinit, hm, hd, href, hne, hc ref href hne]
  · rcases href : it.fallbackSSM with _ | ref
    · simp [getConfig, hfind, hinit, hm, hd, href]
    · by_cases hne : ref = ""
      · simp [getConfig, hfind, hinit, hm, hd, href, hne]
      · simp [getConfig, hfind, hinit, hm, hd, href, hne, hc ref href hne]

/-- Witness for C5 at concrete inputs: a settled state whose live
environment variable is defined makes getConfig return it coerced. -/
theorem c5_getConfig_settled_witness :
    (([{ key := "K", envVar := "E", fallbackSSM := some "r",
         fallbackStatic := some (.vStr "d"), type := "string" }] :
        List ConfigItem).find? (fun i => i.key = "K") = some
      { key := "K", envVar := "E", fallbackSSM := some "r",
        fallbackStatic := some (.vStr "d"), type := "string" }) ∧
    getConfig
      [{ key := "K", envVar := "E", fallbackSSM := some "r",
         fallbackStatic := some (.vStr "d"), type := "string" }]
      { env := fun n => if n = "E" then some "hello" else none,
        ssmCache := [("r", "rv")], configInitialized := true } "K" =
      .ok (.vStr "hello") :=
  ⟨by decide,
    (c5_getConfig_settled
      [{ key := "K", envVar := "E", fallbackSSM := some "r",
         fallbackStatic := some (.vStr "d"), type := "string" }]
      { env := fun n => if n = "E" then some "hello" else none,
        ssmCache := [("r", "rv")], configInitialized := true } "K"
      { key := "K", envVar := "E", fallbackSSM := some "r",
        fallbackStatic := some (.vStr "d"), type := "string" }
      (by decide) rfl).1 "hello" (by decide)⟩

/-- Counterexample for C6: after initialization has settled, getConfig
does not skip an environment variable whose current value is the empty
string.  For an item of type string with static default "d" and the
environment variable set to "", getConfig returns the empty string
rather than falling through to the default, because the settled-path
presence test in src/index.js line 309 is defined-ness, not
truthiness. -/
theorem c6_counterexample :
    getConfig
      [{ key := "K", envVar := "E", fallbackStatic := some (.vStr "d"),
         type := "string" }]
      { env := fun n => if n = "E" then some "" else none, ssmCache := [],
        configInitialized := true } "K" = .ok (.vStr "") ∧
    getConfig
      [{ key := "K", envVar := "E", fallbackStatic := some (.vStr "d"),
         type := "string" }]
      { env := fun n => if n = "E" then some "" else none, ssmCache := [],
        configInitialized := true } "K" ≠ .ok (.vStr "d") :=
  ⟨by decide, by decide⟩

/-- C6 as amended: during a resolution pass an environment variable set
to the empty string is treated as absent and the item falls through to
its fallbacks; but after initialization has settled, the presence test
of getConfig is defined-ness, so an environment variable currently set
to the empty string is used (coerced to the declared type) rather than
skipped. -/
theorem c6_empty_env_amended :
    (∀ (env : Env) (m : Smap) (it : ConfigItem), env it.envVar = some "" →
      resolveRaw env m it = resolveFallback m it) ∧
    (∀ (configMap : List ConfigItem) (st : Sys) (key : String) (it : ConfigItem),
      configMap.find? (fun i => i.key = key) = some it →
      st.configInitialized = true → st.env it.envVar = some "" →
      getConfig configMap st key = convertValue (.vStr "") it.type) := by
  constructor
  · intro env m it h
    simp [resolveRaw, h]
  · intro configMap st key it hfind hinit hs
    simp [getConfig, hfind, hinit, hs]

/-- Witness for the amended C6 at concrete inputs: both the
resolution-pass behavior (empty environment value falls through to the
static default) and the settled getConfig behavior (empty environment
value is returned as the resolved value). -/
theorem c6_empty_env_amended_witness :
    resolveRaw (fun n => if n = "E" then some "" else none) []
      { key := "K", envVar := "E", fallbackStatic := some (.vStr "d"),
        type := "string" } = .ok (.vStr "d", .default) ∧
    getConfig
      [{ key := "K", envVar := "E", fallbackStatic := some (.vStr "d"),
         type := "string" }]
      { env := fun n => if n = "E" then some "" else none, ssmCache := [],
        configInitialized := true } "K" = .ok (.vStr "") := by
  constructor
  · rw [c6_empty_env_amended.1 (fun n => if n = "E" then some "" else none) []
      { key := "K", envVar := "E", fallbackStatic := some (.vStr "d"),
        type := "string" } (by decide)]
    decide
  · exact c6_empty_env_amended.2
      [{ key := "K", envVar := "E", fallbackStatic := some (.vStr "d"),
         type := "string" }]
      { env := fun n => if n = "E" then some "" else none, ssmCache := [],
        configInitialized := true } "K"
      { key := "K", envVar := "E", fallbackStatic := some (.vStr "d"),
        type := "string" } (by decide) rfl (by decide)

lemma loadConfigFetch_env (isLambda : Bool) (lambdaFetch : String → Option String)
    (batchFetch : List String → Option String → Smap) (kmsKeyId : Option String)
    (configMap : List ConfigItem) (st : Sys) :
    (loadConfigFetch isLambda lambdaFetch batchFetch kmsKeyId configMap st).2.1.env =
      st.env ∧
    (loadConfigFetch isLambda lambdaFetch batchFetch kmsKeyId
        configMap st).2.1.configInitialized = st.configInitialized := by
  by_cases h : (configMap.filterMap
      (fun it => if truthyOpt it.fallbackSSM then it.fallbackSSM else none)).length >
      0 <;>
    simp [loadConfigFetch, h]

lemma loadConfigRun_error (configMap : List ConfigItem) (f : Smap × Sys × FetchTrace)
    (e : ConfigError) (h : (loadConfigRun configMap f).1 = .error e) :
    (loadConfigRun configMap f).2.1.configInitialized =
      f.2.1.configInitialized := by
  unfold loadConfigRun at h ⊢
  rcases hp : processItems configMap f.1 f.2.1.env with ⟨r, env'⟩
  simp only [hp] at h ⊢
  cases r <;> simp at h ⊢

/-- Counterexample for C4: a concrete failed resolution pass whose
partial side effects are committed.  The schema has a first item that
resolves from the remote store and a second item with no source at all;
the pass fails with MissingConfigValue for the second key, yet the
environment variable of the first item has been written (it was unset
before the pass) and the RemoteCache now holds the fetched value (it
was empty before the pass). -/
theorem c4_counterexample :
    (loadConfig false (fun _ => none) (fun _ _ => [("ref", "rv")]) none
      [{ key := "K1", envVar := "E1", fallbackSSM := some "ref", type := "string" },
       { key := "K2", envVar := "E2", type := "string" }]
      { env := fun _ => none, ssmCache := [], configInitialized := false }).1 =
      .error (.missingConfigValue "K2") ∧
    (fun _ => none : Env) "E1" = none ∧
    (loadConfig false (fun _ => none) (fun _ _ => [("ref", "rv")]) none
      [{ key := "K1", envVar := "E1", fallbackSSM := some "ref", type := "string" },
       { key := "K2", envVar := "E2", type := "string" }]
      { env := fun _ => none, ssmCache := [], configInitialized := false }).2.1.env
      "E1" = some "rv" ∧
    (loadConfig false (fun _ => none) (fun _ _ => [("ref", "rv")]) none
      [{ key := "K1", envVar := "E1", fallbackSSM := some "ref", type := "string" },
       { key := "K2", envVar := "E2", type := "string" }]
      { env := fun _ => none, ssmCache := [],
        configInitialized := false }).2.1.ssmCache = [("ref", "rv")] :=
  ⟨by decide, rfl, by decide, by decide⟩

/-- C4 as amended: a failed resolution pass is atomic with respect to
settling only — the pass fails as a whole and the configInitialized
flag is left unchanged (no partial success is ever committed as an
initialized configuration) — but the side effects already performed
when the failing item is reached do persist: the RemoteCache keeps the
values stored by the fetch phase and the environment write-backs of
items resolved earlier in the pass remain. -/
theorem c4_failed_pass_not_settled (isLambda : Bool)
    (lambdaFetch : String → Option String)
    (batchFetch : List String → Option String → Smap) (kmsKeyId : Option String)
    (configMap : List ConfigItem) (st : Sys) (e : ConfigError)
    (h : (loadConfig isLambda lambdaFetch batchFetch kmsKeyId configMap st).1 =
      .error e) :
    (loadConfig isLambda lambdaFetch batchFetch kmsKeyId
      configMap st).2.1.configInitialized = st.configInitialized := by
  unfold loadConfig at h ⊢
  by_cases hinit : st.configInitialized
  · rw [if_pos hinit] at h
    exact absurd h (by simp)
  · rw [if_neg hinit] at h ⊢
    rw [loadConfigRun_error configMap _ e h,
      (loadConfigFetch_env isLambda lambdaFetch batchFetch kmsKeyId configMap st).2]

/-- Witness for the amended C4 at the concrete failing pass of the
counterexample input: the failed pass leaves configInitialized at its
prior value false. -/
theorem c4_failed_pass_not_settled_witness :
    (loadConfig false (fun _ => none) (fun _ _ => [("ref", "rv")]) none
      [{ key := "K1", envVar := "E1", fallbackSSM := some "ref", type := "string" },
       { key := "K2", envVar := "E2", type := "string" }]
      { env := fun _ => none, ssmCache := [], configInitialized := false }).1 =
      .error (.missingConfigValue "K2") ∧
    (loadConfig false (fun _ => none) (fun _ _ => [("ref", "rv")]) none
      [{ key := "K1", envVar := "E1", fallbackSSM := some "ref", type := "string" },
       { key := "K2", envVar := "E2", type := "string" }]
      { env := fun _ => none, ssmCache := [],
        configInitialized := false }).2.1.configInitialized = false :=
  ⟨by decide,
    c4_failed_pass_not_settled false (fun _ => none) (fun _ _ => [("ref", "rv")])
      none
      [{ key := "K1", envVar := "E1", fallbackSSM := some "ref", type := "string" },
       { key := "K2", envVar := "E2", type := "string" }]
      { env := fun _ => none, ssmCache := [], configInitialized := false }
      (.missingConfigValue "K2") (by decide)⟩

lemma initializeConfig_first (s : InitState) (o : Option Bool)
    (hmap : s.configMapSet = true) (hinit : s.configInitialized = false)
    (hp : s.initializationPromise = none) :
    (initializeConfig s o).1 = .started s.nextPromiseId ∧
    (initializeConfig s o).2.configMapSet = true ∧
    (initializeConfig s o).2.configInitialized = false ∧
    (initializeConfig s o).2.initializationPromise = some s.nextPromiseId := by
  cases o <;> simp [initializeConfig, hmap, hinit, hp]

lemma runInitCalls_joined (p : Nat) (opts : List (Option Bool)) :
    ∀ s : InitState, s.configMapSet = true → s.configInitialized = false →
    s.initializationPromise = some p →
    (runInitCalls s opts).1 = List.replicate opts.length (.joined p) := by
  induction opts with
  | nil => intro s _ _ _; rfl
  | cons o rest ih =>
    intro s hmap hinit hp
    have hstep : initializeConfig s o = (.joined p, s) := by
      simp [initializeConfig, hmap, hinit, hp]
    simp [runInitCalls, hstep, List.replicate_succ, ih s hmap hinit hp]

/-- C2: when N callers invoke initialize before any pass settles
(modelled as N synchronous call prefixes running one after another from
a state with the schema set, not initialized, and no promise stored),
exactly one call starts a resolution pass (and hence at most one
remote-fetch sequence is executed), and every later caller receives
the already-stored shared awaitable of that same pass, so all N calls
resolve to the outcome of the one shared pass. -/
theorem c2_concurrent_initialize_once (s : InitState) (opts : List (Option Bool))
    (hmap : s.configMapSet = true) (hinit : s.configInitialized = false)
    (hp : s.initializationPromise = none) (hne : opts ≠ []) :
    (runInitCalls s opts).1 =
      .started s.nextPromiseId ::
        List.replicate (opts.length - 1) (.joined s.nextPromiseId) := by
  rcases opts with _ | ⟨o, rest⟩
  · exact absurd rfl hne
  · obtain ⟨h1, h2, h3, h4⟩ := initializeConfig_first s o hmap hinit hp
    have htail := runInitCalls_joined s.nextPromiseId rest
      (initializeConfig s o).2 h2 h3 h4
    simp only [runInitCalls, List.length_cons]
    rw [h1, htail]
    simp

/-- Witness for C2 at a concrete state and three concurrent callers:
the first call starts the single pass with promise 0 and both later
callers join promise 0. -/
theorem c2_concurrent_initialize_once_witness :
    (runInitCalls
      { configMapSet := true, configInitialized := false,
        initializationPromise := none, isQuietMode := false, nextPromiseId := 0 }
      [none, none, none]).1 = [.started 0, .joined 0, .joined 0] := by
  have h := c2_concurrent_initialize_once
    { configMapSet := true, configInitialized := false,
      initializationPromise := none, isQuietMode := false, nextPromiseId := 0 }
    [none, none, none] rfl rfl rfl (by decide)
  rw [h]
  decide

/-- C3: when the resolution pass backing the shared in-flight promise
fails with an error, the settlement observed by every caller holding
that promise is that same error (first conjunct: the catch handler
rethrows it through the shared promise), the initialization state is
left uninitialized rather than settled, the stored in-flight promise is
cleared, and a subsequent initialize call starts a fresh pass with a
new promise rather than replaying the stored failure. -/
theorem c3_failed_pass_resets (s : InitState) (e : ConfigError)
    (hmap : s.configMapSet = true) (hinit : s.configInitialized = false) :
    (settleInitialization s (.error e)).1 = .error e ∧
    (settleInitialization s (.error e)).2.configInitialized = false ∧
    (settleInitialization s (.error e)).2.initializationPromise = none ∧
    (initializeConfig (settleInitialization s (.error e)).2 none).1 =
      .started (settleInitialization s (.error e)).2.nextPromiseId := by
  refine ⟨rfl, hinit, rfl, ?_⟩
  simp [initializeConfig, settleInitialization, hmap, hinit]

/-- Witness for C3 at a concrete state: after a failed pass the promise
slot is empty, the state is uninitialized, and a retry starts a fresh
pass. -/
theorem c3_failed_pass_resets_witness :
    (settleInitialization
      { configMapSet := true, configInitialized := false,
        initializationPromise := some 0, isQuietMode := false, nextPromiseId := 1 }
      (.error .configMapNotSet)).1 = .error .configMapNotSet ∧
    (settleInitialization
      { configMapSet := true, configInitialized := false,
        initializationPromise := some 0, isQuietMode := false, nextPromiseId := 1 }
      (.error .configMapNotSet)).2.configInitialized = false ∧
    (settleInitialization
      { configMapSet := true, configInitialized := false,
        initializationPromise := some 0, isQuietMode := false, nextPromiseId := 1 }
      (.error .configMapNotSet)).2.initializationPromise = none ∧
    (initializeConfig
      (settleInitialization
        { configMapSet := true, configInitialized := false,
          initializationPromise := some 0, isQuietMode := false,
          nextPromiseId := 1 }
        (.error .configMapNotSet)).2 none).1 =
      .started
        (settleInitialization
          { configMapSet := true, configInitialized := false,
            initializationPromise := some 0, isQuietMode := false,
            nextPromiseId := 1 }
          (.error .configMapNotSet)).2.nextPromiseId :=
  c3_failed_pass_resets
    { configMapSet := true, configInitialized := false,
      initializationPromise := some 0, isQuietMode := false, nextPromiseId := 1 }
    .configMapNotSet rfl rfl

lemma Smap.get_cons (a b : String) (t : Smap) (k : String) :
    Smap.get ((a, b) :: t) k = if a = k then some b else Smap.get t k := by
  by_cases h : a = k <;> simp [Smap.get, List.find?, h]

lemma Smap.get_set_same (m : Smap) (k v : String) :
    (m.set k v).get k = some v := by
  induction m with
  | nil => simp [Smap.set, Smap.get_cons]
  | cons p t ih =>
    rcases p with ⟨a, b⟩
    by_cases h : a = k
    · simp [Smap.set, h, Smap.get_cons]
    · simp [Smap.set, h, Smap.get_cons, ih]

lemma Smap.get_set_ne (m : Smap) (k v k' : String) (h : k' ≠ k) :
    (m.set k v).get k' = m.get k' := by
  induction m with
  | nil =>
    rw [show Smap.set [] k v = [(k, v)] from rfl, Smap.get_cons,
      if_neg (fun hh => h hh.symm)]
  | cons p t ih =>
    rcases p with ⟨a, b⟩
    by_cases ha : a = k
    · rw [show Smap.set ((a, b) :: t) k v = (k, v) :: t by simp [Smap.set, ha],
        Smap.get_cons, Smap.get_cons, if_neg (fun hh => h hh.symm),
        if_neg (fun hh => h (ha.symm.trans hh).symm)]
    · simp [Smap.set, ha, Smap.get_cons, ih]

lemma lambdaPhase_allSome (lf : String → Option String) :
    ∀ (ps : List String) (acc : Smap), (∀ p ∈ ps, (lf p).isSome) →
    (lambdaPhase lf ps acc).2.1 = false ∧
    (lambdaPhase lf ps acc).2.2 = ps ∧
    ∀ k, Smap.get (lambdaPhase lf ps acc).1 k =
      if k ∈ ps then lf k else Smap.get acc k := by
  intro ps
  induction ps with
  | nil =>
    intro acc _
    exact ⟨rfl, rfl, fun k => by simp [lambdaPhase]⟩
  | cons p rest ih =>
    intro acc hall
    obtain ⟨v, hv⟩ := Option.isSome_iff_exists.mp (hall p (List.mem_cons_self p rest))
    have hrest : ∀ q ∈ rest, (lf q).isSome :=
      fun q hq => hall q (List.mem_cons_of_mem p hq)
    obtain ⟨h1, h2, h3⟩ := ih (acc.set p v) hrest
    refine ⟨by simp [lambdaPhase, hv, h1], by simp [lambdaPhase, hv, h2], fun k => ?_⟩
    simp only [lambdaPhase, hv]
    rw [h3 k]
    by_cases hk : k ∈ rest
    · simp [hk, List.mem_cons]
    · by_cases hkp : k = p
      · subst hkp
        simp [hk, Smap.get_set_same, hv]
      · simp [hk, hkp, Smap.get_set_ne acc p v k hkp]

lemma lambdaPhase_firstFail (lf : String → Option String) :
    ∀ (pre : List String) (q : String) (post : List String) (acc : Smap),
    (∀ p ∈ pre, (lf p).isSome) → lf q = none →
    (lambdaPhase lf (pre ++ q :: post) acc).2.1 = true ∧
    (lambdaPhase lf (pre ++ q :: post) acc).2.2 = pre ++ [q] := by
  intro pre
  induction pre with
  | nil => intro q post acc _ hq; simp [lambdaPhase, hq]
  | cons p rest ih =>
    intro q post acc hall hq
    obtain ⟨v, hv⟩ := Option.isSome_iff_exists.mp (hall p (List.mem_cons_self p rest))
    obtain ⟨h1, h2⟩ := ih q post (acc.set p v)
      (fun r hr => hall r (List.mem_cons_of_mem p hr)) hq
    exact ⟨by simp [lambdaPhase, hv, h1], by simp [lambdaPhase, hv, h2]⟩

/-- C8: in the Lambda-detected environment the fetch orchestration
attempts the local-agent fetcher for each required reference one at a
time in order; when some attempt returns null (the split
params = pre ++ q :: post with every reference in pre succeeding and q
failing), the remaining attempts are abandoned (only pre ++ [q] were
attempted), all partial local-agent results are discarded, and the full
reference set is fetched through the batch store fetcher; when no
attempt returns null, the local-agent results are used for every
reference and no batch call is made. -/
theorem c8_lambda_orchestration (lf : String → Option String)
    (batchFetch : List String → Option String → Smap) (kmsKeyId : Option String)
    (params : List String) :
    ((∀ p ∈ params, (lf p).isSome) → params ≠ [] →
      (fetchOrchestration true lf batchFetch kmsKeyId params).2.batchCalled =
        false ∧
      (fetchOrchestration true lf batchFetch kmsKeyId params).2.lambdaCalls =
        params ∧
      ∀ p ∈ params,
        Smap.get (fetchOrchestration true lf batchFetch kmsKeyId params).1 p =
          lf p) ∧
    (∀ pre q post, params = pre ++ q :: post → (∀ p ∈ pre, (lf p).isSome) →
      lf q = none →
      (fetchOrchestration true lf batchFetch kmsKeyId params).2.batchCalled =
        true ∧
      (fetchOrchestration true lf batchFetch kmsKeyId params).2.lambdaCalls =
        pre ++ [q] ∧
      (fetchOrchestration true lf batchFetch kmsKeyId params).1 =
        batchFetch params kmsKeyId) := by
  constructor
  · intro hall hne
    obtain ⟨h1, h2, h3⟩ := lambdaPhase_allSome lf params [] hall
    have hr1 : (lambdaPhase lf params []).1.isEmpty = false := by
      rcases params with _ | ⟨p0, rest⟩
      · exact absurd rfl hne
      · have hg := h3 p0
        rw [if_pos (List.mem_cons_self p0 rest)] at hg
        have hs := hall p0 (List.mem_cons_self p0 rest)
        cases hq : (lambdaPhase lf (p0 :: rest) []).1 with
        | nil =>
          rw [hq] at hg
          rw [show Smap.get [] p0 = none from rfl] at hg
          rw [← hg] at hs
          simp at hs
        | cons x xs => simp [hq]
    refine ⟨by simp [fetchOrchestration, h1, h2, hr1], by
      simp [fetchOrchestration, h1, h2, hr1], fun p hp => ?_⟩
    have := h3 p
    rw [if_pos hp] at this
    simp [fetchOrchestration, h1, h2, hr1, this]
  · intro pre q post hsplit hall hq
    subst hsplit
    obtain ⟨h1, h2⟩ := lambdaPhase_firstFail lf pre q post [] hall hq
    exact ⟨by simp [fetchOrchestration, h1, h2],
      by simp [fetchOrchestration, h1, h2],
      by simp [fetchOrchestration, h1, h2]⟩

/-- Witness for C8 at concrete inputs, exercising both branches: with
every local-agent fetch succeeding the batch fetcher is not called and
the local results are used; with the first fetch failing the batch
fetcher is called on the full set after attempting only the failing
reference. -/
theorem c8_lambda_orchestration_witness :
    ((fetchOrchestration true
      (fun p => if p = "a" then some "va" else if p = "b" then some "vb" else none)
      (fun _ _ => [("a", "bulk")]) none ["a", "b"]).2.batchCalled = false ∧
      (fetchOrchestration true
        (fun p => if p = "a" then some "va" else if p = "b" then some "vb" else none)
        (fun _ _ => [("a", "bulk")]) none ["a", "b"]).2.lambdaCalls = ["a", "b"] ∧
      Smap.get (fetchOrchestration true
        (fun p => if p = "a" then some "va" else if p = "b" then some "vb" else none)
        (fun _ _ => [("a", "bulk")]) none ["a", "b"]).1 "a" = some "va") ∧
    ((fetchOrchestration true (fun _ => (none : Option String))
      (fun _ _ => [("c", "bulk")]) none ["c", "d"]).2.batchCalled = true ∧
      (fetchOrchestration true (fun _ => (none : Option String))
        (fun _ _ => [("c", "bulk")]) none ["c", "d"]).2.lambdaCalls = ["c"] ∧
      (fetchOrchestration true (fun _ => (none : Option String))
        (fun _ _ => [("c", "bulk")]) none ["c", "d"]).1 = [("c", "bulk")]) := by
  constructor
  · obtain ⟨hb, hl, hg⟩ := (c8_lambda_orchestration
      (fun p => if p = "a" then some "va" else if p = "b" then some "vb" else none)
      (fun _ _ => [("a", "bulk")]) none ["a", "b"]).1 (by decide) (by decide)
    exact ⟨hb, hl, by rw [hg "a" (by decide)]; decide⟩
  · obtain ⟨hb, hl, hg⟩ := (c8_lambda_orchestration
      (fun _ => (none : Option String)) (fun _ _ => [("c", "bulk")]) none
      ["c", "d"]).2 [] "c" ["d"] rfl (by decide) rfl
    exact ⟨hb, hl, hg⟩

lemma fetchIndividually_spec (single : String → Option String → Option String)
    (kk : Option String) :
    ∀ (names : List String) (acc : Smap),
    (fetchIndividually single kk names acc).2 = names.map (fun n => (n, kk)) ∧
    ∀ n, Smap.get (fetchIndividually single kk names acc).1 n =
      if n ∈ names ∧ (single n kk).isSome then single n kk
      else Smap.get acc n := by
  intro names
  induction names with
  | nil => intro acc; exact ⟨rfl, fun n => by simp [fetchIndividually]⟩
  | cons p rest ih =>
    intro acc
    rcases hp : single p kk with _ | v
    · obtain ⟨h1, h2⟩ := ih acc
      refine ⟨by simp [fetchIndividually, hp, h1], fun n => ?_⟩
      simp only [fetchIndividually, hp]
      rw [h2 n]
      by_cases hnp : n = p
      · subst hnp
        simp [hp]
      · simp [List.mem_cons, hnp]
    · obtain ⟨h1, h2⟩ := ih (acc.set p v)
      refine ⟨by simp [fetchIndividually, hp, h1], fun n => ?_⟩
      simp only [fetchIndividually, hp]
      rw [h2 n]
      by_cases hn : n ∈ rest ∧ (single n kk).isSome
      · simp [hn, hn.1, hn.2, List.mem_cons]
      · by_cases hnp : n = p
        · subst hnp
          simp [hn, Smap.get_set_same, hp]
        · simp [hn, hnp, List.mem_cons, Smap.get_set_ne acc p v n hnp]

/-- C9: when a truthy (non-default) KMS decryption key is specified, the
batch store fetcher never issues a bulk call: it performs one single
fetch per reference in order, passing the key to each, each
independently tolerant of not-found, and the returned mapping contains
exactly the references that were found. -/
theorem c9_custom_key_individual_fetches
    (single : String → Option String → Option String) (bulk : List String → Smap)
    (parameterNames : List String) (k : String) (hk : k ≠ "") :
    (getBatchFromSSM single bulk parameterNames (some k)).2.bulkCalled = false ∧
    (getBatchFromSSM single bulk parameterNames (some k)).2.singleCalls =
      parameterNames.map (fun n => (n, some k)) ∧
    ∀ n, Smap.get (getBatchFromSSM single bulk parameterNames (some k)).1 n =
      if n ∈ parameterNames ∧ (single n (some k)).isSome then single n (some k)
      else none := by
  have ht : truthyOpt (some k) = true := by simp [truthyOpt, hk]
  obtain ⟨h1, h2⟩ := fetchIndividually_spec single (some k) parameterNames []
  refine ⟨by simp [getBatchFromSSM, ht], by simp [getBatchFromSSM, ht, h1],
    fun n => ?_⟩
  simp only [getBatchFromSSM, ht, if_true]
  rw [h2 n]
  rfl

/-- Witness for C9 at concrete inputs: with key "key" the bulk path is
bypassed, both references are fetched individually with the key, and
only the found reference appears in the result. -/
theorem c9_custom_key_individual_fetches_witness :
    (getBatchFromSSM
      (fun n _ => if n = "a" then some "va" else none)
      (fun _ => [("a", "bulk")]) ["a", "b"] (some "key")).2.bulkCalled = false ∧
    (getBatchFromSSM
      (fun n _ => if n = "a" then some "va" else none)
      (fun _ => [("a", "bulk")]) ["a", "b"] (some "key")).2.singleCalls =
      [("a", some "key"), ("b", some "key")] ∧
    Smap.get (getBatchFromSSM
      (fun n _ => if n = "a" then some "va" else none)
      (fun _ => [("a", "bulk")]) ["a", "b"] (some "key")).1 "a" = some "va" ∧
    Smap.get (getBatchFromSSM
      (fun n _ => if n = "a" then some "va" else none)
      (fun _ => [("a", "bulk")]) ["a", "b"] (some "key")).1 "b" = none := by
  obtain ⟨hb, hc, hg⟩ := c9_custom_key_individual_fetches
    (fun n _ => if n = "a" then some "va" else none)
    (fun _ => [("a", "bulk")]) ["a", "b"] "key" (by decide)
  exact ⟨hb, by rw [hc]; decide, by rw [hg "a"]; decide, by rw [hg "b"]; decide⟩

end SSMConfig
